import Mathlib

/-!
Verification development for the resilient data synchronization core of the
thedata.io backend and its deployed Prometheus alerting configuration.

The alert rules and the documented metric set are embedded from the
repository's monitoring configuration (the `data_sync_alerts` rule group and
the Metrics Reference of the monitoring documentation).  The synchronization
core itself (RetryPolicy, CircuitBreaker, SyncOperationExecutor,
RecoveryManager) is not present in the repository tree; those components are
modelled from the specification, as marked on each definition.
-/

/-! ## Embedded Prometheus alerting configuration (data_sync_alerts group) -/

/-- Abstract syntax of the PromQL alert conditions occurring in the deployed
`data_sync_alerts` rule group.  Windows are in minutes, thresholds are exact
rationals. -/
inductive PromCond where
  | rateGt (metric : String) (sel : List (String × String)) (windowMin : Nat) (threshold : ℚ)
  | quantileRateGt (q : ℚ) (bucketMetric : String) (windowMin : Nat) (threshold : ℚ)
  | failureRatioGt (attemptsMetric successMetric : String) (windowMin : Nat) (threshold : ℚ)
  | absentRateGt (metric : String) (sel : List (String × String)) (windowMin : Nat) (threshold : ℚ)
  | countOverTimeGt (metric : String) (windowMin : Nat) (threshold : ℚ)
  | lastValueAgeBy (metric : String) (sel : List (String × String)) (groupBy : List String) (thresholdSec : ℚ)
  | andCond (left right : PromCond)
deriving DecidableEq

/-- One alerting rule: name, condition expression, `for:` duration in
minutes, and severity label. -/
structure AlertRule where
  name : String
  cond : PromCond
  holdMinutes : Nat
  severity : String
deriving DecidableEq

/-- Metric names mentioned by a condition expression. -/
def condMetrics : PromCond → List String
  | .rateGt m _ _ _ => [m]
  | .quantileRateGt _ m _ _ => [m]
  | .failureRatioGt a s _ _ => [a, s]
  | .absentRateGt m _ _ _ => [m]
  | .countOverTimeGt m _ _ => [m]
  | .lastValueAgeBy m _ _ _ => [m]
  | .andCond l r => condMetrics l ++ condMetrics r

/-- `rate(sync_errors_total[5m]) > 0.1`, for 5m. -/
def highSyncErrorRate : AlertRule :=
  ⟨"HighSyncErrorRate", .rateGt "sync_errors_total" [] 5 (1/10), 5, "warning"⟩

/-- `histogram_quantile(0.95, rate(sync_duration_seconds_bucket[5m])) > 300`, for 5m. -/
def syncDurationHigh : AlertRule :=
  ⟨"SyncDurationHigh", .quantileRateGt (95/100) "sync_duration_seconds_bucket" 5 300, 5, "warning"⟩

/-- `(rate(sync_recovery_attempts_total[5m]) - rate(sync_recovery_success_total[5m]))
/ rate(sync_recovery_attempts_total[5m]) > 0.5`, for 5m. -/
def highRecoveryFailureRate : AlertRule :=
  ⟨"HighRecoveryFailureRate",
    .failureRatioGt "sync_recovery_attempts_total" "sync_recovery_success_total" 5 (1/2),
    5, "critical"⟩

/-- `absent(rate(sync_operations_total{status="completed"}[30m]) > 0)`, for 30m. -/
def noSuccessfulSyncs : AlertRule :=
  ⟨"NoSuccessfulSyncs",
    .absentRateGt "sync_operations_total" [("status", "completed")] 30 0,
    30, "critical"⟩

/-- `histogram_quantile(0.95, rate(sync_recovery_duration_seconds_bucket[5m])) > 60`, for 5m. -/
def recoveryDurationHigh : AlertRule :=
  ⟨"RecoveryDurationHigh", .quantileRateGt (95/100) "sync_recovery_duration_seconds_bucket" 5 60, 5, "warning"⟩

/-- `count_over_time(sync_recovery_failure_total[1h]) > 5`, for 1h. -/
def consecutiveRecoveryFailures : AlertRule :=
  ⟨"ConsecutiveRecoveryFailures", .countOverTimeGt "sync_recovery_failure_total" 60 5, 60, "critical"⟩

/-- `time() - max(sync_operations_total{status="completed"}) by (source_type) > 3600`, for 1h. -/
def syncStalled : AlertRule :=
  ⟨"SyncStalled",
    .lastValueAgeBy "sync_operations_total" [("status", "completed")] ["source_type"] 3600,
    60, "warning"⟩

/-- `rate(sync_errors_total[5m]) > 0.1 and rate(sync_recovery_success_total[5m]) > 0`, for 5m. -/
def highErrorRateAfterRecovery : AlertRule :=
  ⟨"HighErrorRateAfterRecovery",
    .andCond (.rateGt "sync_errors_total" [] 5 (1/10)) (.rateGt "sync_recovery_success_total" [] 5 0),
    5, "critical"⟩

/-- The deployed `data_sync_alerts` rule group, in file order. -/
def dataSyncAlerts : List AlertRule :=
  [highSyncErrorRate, syncDurationHigh, highRecoveryFailureRate, noSuccessfulSyncs,
   recoveryDurationHigh, consecutiveRecoveryFailures, syncStalled, highErrorRateAfterRecovery]

/-! ### Semantics of the two alert expressions needed for the alert claims -/

/-- One time series visible to an alert expression: metric name, label set,
and its `rate(...)` value over the expression's window. -/
structure SeriesSample where
  metric : String
  labels : List (String × String)
  rate : ℚ
deriving DecidableEq

/-- A label selector `{k="v",...}` matches a label set when every required
pair is present. -/
def selMatches (labels sel : List (String × String)) : Bool :=
  sel.all (fun p => labels.contains p)

/-- Semantics of `absent(rate(metric{sel}[w]) > threshold)`: the alert fires
iff no series of the metric matches the selector with rate above the
threshold.  There is no grouping: a single matching series anywhere
suppresses the alert globally. -/
def evalAbsentRateGt (metric : String) (sel : List (String × String)) (threshold : ℚ)
    (world : List SeriesSample) : Bool :=
  (world.filter fun s =>
    s.metric == metric && selMatches s.labels sel && decide (threshold < s.rate)).isEmpty

/-- Semantics of `(rate(a[w]) - rate(b[w])) / rate(a[w]) > threshold` at one
matched label set, given the two rates.  When the denominator is zero the
PromQL quotient is NaN (or -Inf when the numerator is negative); neither
exceeds a nonnegative threshold, so the condition does not fire; this is
modelled by returning `false` outright. -/
def evalFailureRatioGt (threshold attemptsRate successRate : ℚ) : Bool :=
  if attemptsRate = 0 then false
  else decide (threshold < (attemptsRate - successRate) / attemptsRate)

/-! ### The four alerting conditions named by the specification -/

/-- Follows the spec's words: a rule concerns the "error rate > 10%/5min"
condition when its expression mentions the sync error counter. -/
def mentionsSpecErrorRate (r : AlertRule) : Bool :=
  (condMetrics r.cond).contains "sync_errors_total"

/-- Follows the spec's words: a rule concerns the "recovery failure rate >
50%/5min" condition when its expression mentions the recovery attempt or
recovery success counters. -/
def mentionsSpecRecoveryFailureRate (r : AlertRule) : Bool :=
  (condMetrics r.cond).contains "sync_recovery_attempts_total"
  || (condMetrics r.cond).contains "sync_recovery_success_total"

/-- Follows the spec's words: a rule concerns the "no successful syncs in
30min" condition when its expression mentions the sync operations counter. -/
def mentionsSpecNoSuccess (r : AlertRule) : Bool :=
  (condMetrics r.cond).contains "sync_operations_total"

/-- Follows the spec's words: a rule concerns the "escalated jobs > 0"
condition when its expression mentions an escalated-jobs metric.  The spec
names no concrete metric; no metric name occurring anywhere in the deployed
rule group refers to escalated jobs, so the canonical name is used. -/
def mentionsSpecEscalated (r : AlertRule) : Bool :=
  (condMetrics r.cond).contains "sync_recovery_escalated_total"

/-- A rule matches some condition of the spec's four (under the generous
metric-mention reading). -/
def matchesSomeSpecCondition (r : AlertRule) : Bool :=
  mentionsSpecErrorRate r || mentionsSpecRecoveryFailureRate r
  || mentionsSpecNoSuccess r || mentionsSpecEscalated r

/-! ## Embedded documented metric set (Metrics Reference) -/

/-- Prometheus metric kinds. -/
inductive MetricKind where
  | counter
  | histogram
  | gauge
deriving DecidableEq

/-- The metrics listed in the monitoring documentation's Metrics Reference,
with their documented kinds. -/
def documentedMetrics : List (String × MetricKind) :=
  [("sync_operations_total", .counter),
   ("sync_duration_seconds", .histogram),
   ("sync_records_processed_total", .counter),
   ("sync_errors_total", .counter),
   ("sync_recovery_attempts_total", .counter),
   ("sync_recovery_success_total", .counter),
   ("sync_recovery_duration_seconds", .histogram),
   ("health_check_status", .gauge),
   ("health_check_duration_seconds", .histogram)]

/-! ## Synchronization core, modelled from the specification
The implementation of RetryPolicy, CircuitBreaker, SyncOperationExecutor and
RecoveryManager is not present in the repository tree (only documentation,
alerting configuration and callers survive), so these components are modelled
from the specification text. -/

/-- Modelled from the spec: error classification of §4.1 — the RetryPolicy
implementation is missing from the tree.  Errors are partitioned into
`retryable` (timeouts, connection resets, transient exhaustion, 5xx) and
`terminal` (malformed payload, schema violation, auth failure, 4xx). -/
inductive ErrorClass where
  | retryable
  | terminal
deriving DecidableEq

/-- Modelled from the spec: RetryPolicy configuration of §4.1 — the
RetryPolicy implementation is missing from the tree.  Delays are in
milliseconds. -/
structure RetryConfig where
  baseDelay : Nat
  maxDelay : Nat
  multiplier : Nat
  maxAttempts : Nat
deriving DecidableEq

/-- Modelled from the spec: `nextDelay(attempt) = min(maxDelay,
baseDelay * multiplier^(attempt-1))` of §4.1 — the RetryPolicy
implementation is missing from the tree. -/
def nextDelay (cfg : RetryConfig) (attempt : Nat) : Nat :=
  min cfg.maxDelay (cfg.baseDelay * cfg.multiplier ^ (attempt - 1))

/-- Modelled from the spec: full jitter of §4.1, actual sleep =
`uniform(0, delay)` — the RetryPolicy implementation is missing from the
tree.  The random draw is modelled by an arbitrary seed reduced into the
inclusive range `[0, delay]`. -/
def fullJitterSleep (seed delay : Nat) : Nat :=
  seed % (delay + 1)

/-- Modelled from the spec: circuit breaker states of §4.2 — the
CircuitBreaker implementation is missing from the tree. -/
inductive CBState where
  | closed
  | opened
  | halfOpen
deriving DecidableEq

/-- Modelled from the spec: per-target breaker thresholds of §4.2 — the
CircuitBreaker implementation is missing from the tree.  `openDuration` is
in milliseconds of monotonic time. -/
structure CBConfig where
  failureThreshold : Nat
  successThreshold : Nat
  openDuration : Nat
deriving DecidableEq

/-- Modelled from the spec: CircuitBreakerState of §3 — the CircuitBreaker
implementation is missing from the tree. -/
structure Breaker where
  state : CBState
  consecutive_failures : Nat
  consecutive_successes : Nat
  opened_at : Option Nat
deriving DecidableEq

/-- Modelled from the spec: the inputs that can mutate a breaker of §4.2 —
the CircuitBreaker implementation is missing from the tree.  `checkTransition`
is the admission-time check that moves an expired open breaker to half-open. -/
inductive CBEvent where
  | recordSuccess (now : Nat)
  | recordFailure (cls : ErrorClass) (now : Nat)
  | checkTransition (now : Nat)
deriving DecidableEq

/-- Modelled from the spec: the state-machine transition function of §4.2 —
the CircuitBreaker implementation is missing from the tree.  Only
retryable-classified errors count toward `consecutive_failures`; terminal
errors leave the breaker untouched (§4.2 failure semantics, Scenario D). -/
def cbStep (cfg : CBConfig) (b : Breaker) (e : CBEvent) : Breaker :=
  match e with
  | .recordSuccess _ =>
    match b.state with
    | .closed => { b with consecutive_failures := 0 }
    | .opened => b
    | .halfOpen =>
      if cfg.successThreshold ≤ b.consecutive_successes + 1 then
        ⟨.closed, 0, 0, none⟩
      else
        { b with consecutive_successes := b.consecutive_successes + 1 }
  | .recordFailure cls now =>
    match cls with
    | .terminal => b
    | .retryable =>
      match b.state with
      | .closed =>
        if cfg.failureThreshold ≤ b.consecutive_failures + 1 then
          ⟨.opened, b.consecutive_failures + 1, 0, some now⟩
        else
          { b with consecutive_failures := b.consecutive_failures + 1 }
      | .opened => b
      | .halfOpen => ⟨.opened, b.consecutive_failures, 0, some now⟩
  | .checkTransition now =>
    match b.state with
    | .opened =>
      match b.opened_at with
      | some t =>
        if t + cfg.openDuration ≤ now then
          ⟨.halfOpen, b.consecutive_failures, 0, none⟩
        else b
      | none => b
    | _ => b

/-- The four transitions the specification allows (§4.2, §8), with their
guards: closed→open when `consecutive_failures` reaches the failure
threshold on a retryable failure; open→half-open once `openDuration` has
elapsed; half-open→closed when `consecutive_successes` reaches the success
threshold; half-open→open on any probe failure. -/
def cbAllowed (cfg : CBConfig) (b : Breaker) (e : CBEvent) (b' : Breaker) : Prop :=
  (b.state = .closed ∧ b'.state = .opened
    ∧ (∃ now, e = .recordFailure .retryable now)
    ∧ cfg.failureThreshold ≤ b.consecutive_failures + 1)
  ∨ (b.state = .opened ∧ b'.state = .halfOpen
    ∧ (∃ now t, e = .checkTransition now ∧ b.opened_at = some t ∧ t + cfg.openDuration ≤ now))
  ∨ (b.state = .halfOpen ∧ b'.state = .closed
    ∧ (∃ now, e = .recordSuccess now)
    ∧ cfg.successThreshold ≤ b.consecutive_successes + 1)
  ∨ (b.state = .halfOpen ∧ b'.state = .opened
    ∧ (∃ now, e = .recordFailure .retryable now))

/-- Modelled from the spec: SyncOperation status values of §3 — the
SyncOperationExecutor implementation is missing from the tree. -/
inductive OpStatus where
  | pending
  | in_progress
  | succeeded
  | failed_retryable
  | failed_terminal
deriving DecidableEq

/-- Modelled from the spec: outcome of one underlying write attempt — the
SyncOperationExecutor implementation is missing from the tree. -/
inductive AttemptOutcome where
  | success
  | failure (cls : ErrorClass)
deriving DecidableEq

/-- Modelled from the spec: what `execute` returns for an operation — final
status, final `attempt_count`, and whether the operation was handed to the
RecoveryManager (§4.3). -/
structure ExecResult where
  status : OpStatus
  attempt_count : Nat
  handedToRecovery : Bool
deriving DecidableEq

/-- Modelled from the spec: the bounded local retry loop of §4.3 — the
SyncOperationExecutor implementation is missing from the tree.  `outcomes n`
is the result of the write attempted with `attempt_count = n`; `remaining`
is the retry budget `maxAttempts - attempt_count`, which makes the loop's
bound structural.  On success the operation succeeds; a terminal error stops
immediately with `failed_terminal` and no recovery; a retryable error with
budget left retries at `attempt_count + 1`; an exhausted budget yields
`failed_retryable` handed to recovery. -/
def execGo (outcomes : Nat → AttemptOutcome) (ac : Nat) : Nat → ExecResult
  | 0 =>
    match outcomes ac with
    | .success => ⟨.succeeded, ac, false⟩
    | .failure .terminal => ⟨.failed_terminal, ac, false⟩
    | .failure .retryable => ⟨.failed_retryable, ac, true⟩
  | r + 1 =>
    match outcomes ac with
    | .success => ⟨.succeeded, ac, false⟩
    | .failure .terminal => ⟨.failed_terminal, ac, false⟩
    | .failure .retryable => execGo outcomes (ac + 1) r

/-- Modelled from the spec: `execute` starting at `attempt_count = ac`
against budget `maxAttempts` (§4.3). -/
def execFrom (outcomes : Nat → AttemptOutcome) (maxAttempts ac : Nat) : ExecResult :=
  execGo outcomes ac (maxAttempts - ac)

/-- Modelled from the spec: the successive `attempt_count` values at which
the loop of §4.3 attempts the write, in order. -/
def execTraceGo (outcomes : Nat → AttemptOutcome) (ac : Nat) : Nat → List Nat
  | 0 => [ac]
  | r + 1 =>
    match outcomes ac with
    | .failure .retryable => ac :: execTraceGo outcomes (ac + 1) r
    | _ => [ac]

/-- Modelled from the spec: attempt trace of `execute` starting at
`attempt_count = ac` against budget `maxAttempts` (§4.3). -/
def execTrace (outcomes : Nat → AttemptOutcome) (maxAttempts ac : Nat) : List Nat :=
  execTraceGo outcomes ac (maxAttempts - ac)

/-- Modelled from the spec: an operation is submitted to the
RecoveryManager's queue exactly when the executor reports it handed to
recovery (§4.3, §4.4).  Returns the executor result and the updated queue of
operation ids. -/
def runOperation (outcomes : Nat → AttemptOutcome) (maxAttempts ac : Nat)
    (queue : List Nat) (opId : Nat) : ExecResult × List Nat :=
  let r := execFrom outcomes maxAttempts ac
  (r, if r.handedToRecovery then queue ++ [opId] else queue)

/-- Modelled from the spec: RecoveryJob of §3 — the RecoveryManager
implementation is missing from the tree. -/
structure RecoveryJob where
  operation_id : Nat
  recovery_attempt_count : Nat
  next_attempt_at : Nat
  first_failed_at : Nat
  escalated : Bool
deriving DecidableEq

/-- Modelled from the spec: processing one due recovery job on a `tick`
(§4.4) — the RecoveryManager implementation is missing from the tree.
Returns `(keptInSchedule?, escalatedReport?)`: on success the job is
destroyed; on renewed failure `recovery_attempt_count` increments and either
the job is rescheduled with the exponential-with-jitter delay, or — once the
ceiling `recoveryMaxAttempts` is reached — it is marked `escalated`, removed
from the active schedule, and reported through the metrics/alerting path. -/
def recoveryStep (cfg : RetryConfig) (recoveryMaxAttempts now seed : Nat)
    (j : RecoveryJob) (outcome : AttemptOutcome) : Option RecoveryJob × Option RecoveryJob :=
  match outcome with
  | .success => (none, none)
  | .failure _ =>
    if recoveryMaxAttempts ≤ j.recovery_attempt_count + 1 then
      (none, some { j with recovery_attempt_count := j.recovery_attempt_count + 1,
                           escalated := true })
    else
      (some { j with recovery_attempt_count := j.recovery_attempt_count + 1,
                     next_attempt_at :=
                       now + fullJitterSleep seed (nextDelay cfg (j.recovery_attempt_count + 1)) },
       none)

/-! ## Helper lemmas -/

/-- The final `attempt_count` of the local retry loop is bounded by the
starting count plus the remaining budget. -/
theorem execGo_attempt_le (outcomes : Nat → AttemptOutcome) :
    ∀ remaining ac, (execGo outcomes ac remaining).attempt_count ≤ ac + remaining := by
  intro remaining
  induction remaining with
  | zero =>
    intro ac
    cases h : outcomes ac with
    | success => simp [execGo, h]
    | failure cls => cases cls <;> simp [execGo, h]
  | succ r ih =>
    intro ac
    cases h : outcomes ac with
    | success => simp [execGo, h]
    | failure cls =>
      cases cls with
      | terminal => simp [execGo, h]
      | retryable =>
        simp only [execGo, h]
        have := ih (ac + 1)
        omega

/-- The attempt trace always starts at the starting attempt count. -/
theorem execTraceGo_cons (outcomes : Nat → AttemptOutcome) :
    ∀ remaining ac, ∃ t, execTraceGo outcomes ac remaining = ac :: t := by
  intro remaining ac
  cases remaining with
  | zero => exact ⟨[], rfl⟩
  | succ r =>
    cases h : outcomes ac with
    | success => exact ⟨[], by simp [execTraceGo, h]⟩
    | failure cls =>
      cases cls with
      | terminal => exact ⟨[], by simp [execTraceGo, h]⟩
      | retryable => exact ⟨execTraceGo outcomes (ac + 1) r, by simp [execTraceGo, h]⟩

/-- The attempt trace is strictly increasing. -/
theorem execTraceGo_chain (outcomes : Nat → AttemptOutcome) :
    ∀ remaining ac, List.Chain' (· < ·) (execTraceGo outcomes ac remaining) := by
  intro remaining
  induction remaining with
  | zero => intro ac; simp [execTraceGo]
  | succ r ih =>
    intro ac
    cases h : outcomes ac with
    | success => simp [execTraceGo, h]
    | failure cls =>
      cases cls with
      | terminal => simp [execTraceGo, h]
      | retryable =>
        simp only [execTraceGo, h]
        obtain ⟨t, ht⟩ := execTraceGo_cons outcomes r (ac + 1)
        rw [ht]
        exact List.chain'_cons.mpr ⟨Nat.lt_succ_self ac, ht ▸ ih (ac + 1)⟩

/-- Every attempt number in the trace is bounded by the starting count plus
the remaining budget. -/
theorem execTraceGo_mem_le (outcomes : Nat → AttemptOutcome) :
    ∀ remaining ac a, a ∈ execTraceGo outcomes ac remaining → a ≤ ac + remaining := by
  intro remaining
  induction remaining with
  | zero =>
    intro ac a ha
    simp [execTraceGo] at ha
    omega
  | succ r ih =>
    intro ac a ha
    cases h : outcomes ac with
    | success => simp [execTraceGo, h] at ha; omega
    | failure cls =>
      cases cls with
      | terminal => simp [execTraceGo, h] at ha; omega
      | retryable =>
        simp only [execTraceGo, h, List.mem_cons] at ha
        rcases ha with rfl | ha
        · omega
        · have := ih (ac + 1) a ha
          omega

/-! ## Claim theorems -/

/-- Claim C1: for every target's circuit breaker, the state changes only via
the four transitions closed→open (when `consecutive_failures` reaches the
failure threshold), open→half-open (after `openDuration` elapses),
half-open→closed (after `successThreshold` consecutive probe successes), and
half-open→open (on any probe failure); no other transition between the three
states is reachable, for any state and any event. -/
theorem circuit_transitions_only_allowed (cfg : CBConfig) (b : Breaker) (e : CBEvent)
    (h : (cbStep cfg b e).state ≠ b.state) : cbAllowed cfg b e (cbStep cfg b e) := by
  rcases b with ⟨st, cf, cs, oa⟩
  cases e with
  | recordSuccess now =>
    cases st with
    | closed => simp [cbStep] at h
    | opened => simp [cbStep] at h
    | halfOpen =>
      by_cases hc : cfg.successThreshold ≤ cs + 1
      · simp [cbStep, cbAllowed, hc]
      · simp [cbStep, hc] at h
  | recordFailure cls now =>
    cases cls with
    | terminal => simp [cbStep] at h
    | retryable =>
      cases st with
      | closed =>
        by_cases hf : cfg.failureThreshold ≤ cf + 1
        · simp [cbStep, cbAllowed, hf]
        · simp [cbStep, hf] at h
      | opened => simp [cbStep] at h
      | halfOpen => simp [cbStep, cbAllowed]
  | checkTransition now =>
    cases st with
    | closed => simp [cbStep] at h
    | halfOpen => simp [cbStep] at h
    | opened =>
      cases oa with
      | none => simp [cbStep] at h
      | some t =>
        by_cases ht : t + cfg.openDuration ≤ now
        · simp [cbStep, cbAllowed, ht]
        · simp [cbStep, ht] at h

/-- Witness for C1 at the defaults (threshold 5): a fifth consecutive
retryable failure flips a closed breaker to open, and the transition is
among the allowed four. -/
theorem circuit_transitions_only_allowed_witness :
    (cbStep ⟨5, 2, 30000⟩ ⟨.closed, 4, 0, none⟩ (.recordFailure .retryable 7)).state
      ≠ (⟨.closed, 4, 0, none⟩ : Breaker).state
    ∧ cbAllowed ⟨5, 2, 30000⟩ ⟨.closed, 4, 0, none⟩ (.recordFailure .retryable 7)
        (cbStep ⟨5, 2, 30000⟩ ⟨.closed, 4, 0, none⟩ (.recordFailure .retryable 7)) :=
  ⟨by decide, circuit_transitions_only_allowed _ _ _ (by decide)⟩

/-- Claim C2: across the executor's local retry loop, `attempt_count`
strictly increases on each retry, every attempted count stays within
`maxAttempts`, and the final `attempt_count` never exceeds `maxAttempts`
while the operation has not been handed to the RecoveryManager. -/
theorem attempt_count_strictly_increasing_bounded (outcomes : Nat → AttemptOutcome)
    (maxAttempts ac : Nat) (h : ac ≤ maxAttempts) :
    List.Chain' (· < ·) (execTrace outcomes maxAttempts ac)
    ∧ (∀ a ∈ execTrace outcomes maxAttempts ac, a ≤ maxAttempts)
    ∧ (execFrom outcomes maxAttempts ac).attempt_count ≤ maxAttempts := by
  refine ⟨execTraceGo_chain outcomes (maxAttempts - ac) ac, ?_, ?_⟩
  · intro a ha
    have := execTraceGo_mem_le outcomes (maxAttempts - ac) ac a ha
    omega
  · have := execGo_attempt_le outcomes (maxAttempts - ac) ac
    have heq : execFrom outcomes maxAttempts ac = execGo outcomes ac (maxAttempts - ac) := rfl
    rw [heq]
    omega

/-- Witness for C2: an operation that fails retryably on every attempt, with
`maxAttempts = 3`, attempts exactly at counts 1, 2, 3 and stops at 3. -/
theorem attempt_count_strictly_increasing_bounded_witness :
    1 ≤ 3
    ∧ (List.Chain' (· < ·) (execTrace (fun _ => .failure .retryable) 3 1)
      ∧ (∀ a ∈ execTrace (fun _ => .failure .retryable) 3 1, a ≤ 3)
      ∧ (execFrom (fun _ => .failure .retryable) 3 1).attempt_count ≤ 3) :=
  ⟨by decide, attempt_count_strictly_increasing_bounded (fun _ => .failure .retryable) 3 1 (by decide)⟩

/-- Claim C3: when the write attempted at the current `attempt_count`
fails with a terminal error, the executor returns `failed_terminal`
immediately with no recovery hand-off, performs no further attempt, and the
RecoveryManager queue is left unchanged — no RecoveryJob is ever created. -/
theorem terminal_error_no_recovery (outcomes : Nat → AttemptOutcome)
    (maxAttempts ac : Nat) (queue : List Nat) (opId : Nat)
    (h : outcomes ac = .failure .terminal) :
    execFrom outcomes maxAttempts ac = ⟨.failed_terminal, ac, false⟩
    ∧ execTrace outcomes maxAttempts ac = [ac]
    ∧ (runOperation outcomes maxAttempts ac queue opId).2 = queue := by
  have h1 : execFrom outcomes maxAttempts ac = ⟨.failed_terminal, ac, false⟩ := by
    unfold execFrom
    cases maxAttempts - ac <;> simp [execGo, h]
  have h2 : execTrace outcomes maxAttempts ac = [ac] := by
    unfold execTrace
    cases maxAttempts - ac <;> simp [execTraceGo, h]
  exact ⟨h1, h2, by simp [runOperation, h1]⟩

/-- Witness for C3: a schema-violation-like terminal error on attempt 1 with
`maxAttempts = 3` yields `failed_terminal` at once and an empty recovery
queue stays empty. -/
theorem terminal_error_no_recovery_witness :
    execFrom (fun _ => .failure .terminal) 3 1 = ⟨.failed_terminal, 1, false⟩
    ∧ execTrace (fun _ => .failure .terminal) 3 1 = [1]
    ∧ (runOperation (fun _ => .failure .terminal) 3 1 [] 42).2 = [] :=
  terminal_error_no_recovery (fun _ => .failure .terminal) 3 1 [] 42 rfl

/-- Claim C4: when a recovery job's `recovery_attempt_count` reaches the
recovery ceiling on a renewed failure, the RecoveryManager marks it
`escalated = true`, removes it from the active schedule (`keptInSchedule` is
`none`), and reports it through the metrics/alerting path (the escalated
report is `some`) — it is never dropped without the report. -/
theorem recovery_ceiling_escalates (cfg : RetryConfig) (recoveryMaxAttempts now seed : Nat)
    (j : RecoveryJob) (cls : ErrorClass)
    (h : recoveryMaxAttempts ≤ j.recovery_attempt_count + 1) :
    recoveryStep cfg recoveryMaxAttempts now seed j (.failure cls) =
      (none, some { j with recovery_attempt_count := j.recovery_attempt_count + 1,
                           escalated := true }) := by
  simp [recoveryStep, h]

/-- Witness for C4 at the defaults (`recoveryMaxAttempts = 5`): the fifth
recovery failure escalates the job, removes it from the schedule and reports
it. -/
theorem recovery_ceiling_escalates_witness :
    5 ≤ 4 + 1
    ∧ recoveryStep ⟨60000, 1800000, 2, 5⟩ 5 10 3 ⟨1, 4, 7, 2, false⟩ (.failure .retryable) =
        (none, some ⟨1, 5, 7, 2, true⟩) :=
  ⟨by decide,
    recovery_ceiling_escalates ⟨60000, 1800000, 2, 5⟩ 5 10 3 ⟨1, 4, 7, 2, false⟩ .retryable (by decide)⟩

/-- Claim C5: for every attempt number at least 1, `nextDelay` computes
`min(maxDelay, baseDelay * multiplier^(attempt-1))`, and the jittered sleep
never exceeds that delay, whatever the random seed. -/
theorem backoff_formula_jitter_bounded (cfg : RetryConfig) (attempt seed : Nat)
    (h : 1 ≤ attempt) :
    nextDelay cfg attempt = min cfg.maxDelay (cfg.baseDelay * cfg.multiplier ^ (attempt - 1))
    ∧ fullJitterSleep seed (nextDelay cfg attempt)
        ≤ min cfg.maxDelay (cfg.baseDelay * cfg.multiplier ^ (attempt - 1)) := by
  refine ⟨rfl, ?_⟩
  show seed % (nextDelay cfg attempt + 1) ≤ nextDelay cfg attempt
  have hlt : seed % (nextDelay cfg attempt + 1) < nextDelay cfg attempt + 1 :=
    Nat.mod_lt seed (Nat.succ_pos (nextDelay cfg attempt))
  omega

/-- Witness for C5 with `baseDelay = 100`, `maxDelay = 3000`,
`multiplier = 2`, attempt 3, seed 7777. -/
theorem backoff_formula_jitter_bounded_witness :
    1 ≤ 3
    ∧ (nextDelay ⟨100, 3000, 2, 3⟩ 3 = min 3000 (100 * 2 ^ (3 - 1))
      ∧ fullJitterSleep 7777 (nextDelay ⟨100, 3000, 2, 3⟩ 3) ≤ min 3000 (100 * 2 ^ (3 - 1))) :=
  ⟨by decide, backoff_formula_jitter_bounded ⟨100, 3000, 2, 3⟩ 3 7777 (by decide)⟩

/-- Claim C6: recording a terminal-classified error on a breaker leaves the
whole breaker — in particular `consecutive_failures` and the state —
unchanged, so a terminal error can never cause a closed→open transition;
only retryable-classified errors count toward `consecutive_failures`. -/
theorem terminal_error_breaker_unchanged (cfg : CBConfig) (b : Breaker) (now : Nat) :
    cbStep cfg b (.recordFailure .terminal now) = b
    ∧ (cbStep cfg b (.recordFailure .terminal now)).consecutive_failures = b.consecutive_failures
    ∧ (cbStep cfg b (.recordFailure .terminal now)).state = b.state :=
  ⟨rfl, rfl, rfl⟩

/-- Counterexample to claim C7: the deployed `data_sync_alerts` group does
not fire on exactly the four spec conditions — the rule `SyncDurationHigh`
(95th-percentile sync duration) matches none of them, even under the
generous reading that a rule matches a spec condition whenever it mentions a
metric relevant to it. -/
theorem alerts_not_exactly_spec_four :
    ¬ ∀ r ∈ dataSyncAlerts, matchesSomeSpecCondition r = true := by decide

/-- Claim C7 as amended: the deployed `data_sync_alerts` group covers three
of the spec's four conditions — a sync-error-rate rule (absolute threshold
0.1 errors/sec over 5 minutes), a recovery-failure-rate rule (ratio above
1/2 over 5 minutes) and a no-successful-syncs rule (absence over 30
minutes) — but deploys eight rules in total, and none of them references
any escalated-jobs metric. -/
theorem alerts_cover_three_spec_conditions :
    highSyncErrorRate ∈ dataSyncAlerts
    ∧ highSyncErrorRate.cond = .rateGt "sync_errors_total" [] 5 (1/10)
    ∧ highRecoveryFailureRate ∈ dataSyncAlerts
    ∧ highRecoveryFailureRate.cond =
        .failureRatioGt "sync_recovery_attempts_total" "sync_recovery_success_total" 5 (1/2)
    ∧ noSuccessfulSyncs ∈ dataSyncAlerts
    ∧ noSuccessfulSyncs.cond = .absentRateGt "sync_operations_total" [("status", "completed")] 30 0
    ∧ dataSyncAlerts.length = 8
    ∧ (∀ r ∈ dataSyncAlerts, mentionsSpecEscalated r = false) := by
  refine ⟨?_, rfl, ?_, rfl, ?_, rfl, rfl, ?_⟩
  · simp [dataSyncAlerts]
  · simp [dataSyncAlerts]
  · simp [dataSyncAlerts]
  · decide

/-- Counterexample to claim C8: no `circuit_breaker_state` gauge exists —
it is absent from the documented metric set, and no deployed alert rule
references it. -/
theorem no_circuit_breaker_gauge :
    (documentedMetrics.map Prod.fst).contains "circuit_breaker_state" = false
    ∧ dataSyncAlerts.all (fun r => !(condMetrics r.cond).contains "circuit_breaker_state") = true := by
  decide

/-- Claim C8 as amended: the documented metric set contains the counters
`sync_operations_total`, `sync_errors_total`, `sync_recovery_attempts_total`
and `sync_recovery_success_total` and the histograms `sync_duration_seconds`
and `sync_recovery_duration_seconds`; no `circuit_breaker_state` gauge is
documented. -/
theorem documented_sync_metrics_present :
    ("sync_operations_total", MetricKind.counter) ∈ documentedMetrics
    ∧ ("sync_errors_total", MetricKind.counter) ∈ documentedMetrics
    ∧ ("sync_recovery_attempts_total", MetricKind.counter) ∈ documentedMetrics
    ∧ ("sync_recovery_success_total", MetricKind.counter) ∈ documentedMetrics
    ∧ ("sync_duration_seconds", MetricKind.histogram) ∈ documentedMetrics
    ∧ ("sync_recovery_duration_seconds", MetricKind.histogram) ∈ documentedMetrics
    ∧ (documentedMetrics.map Prod.fst).contains "circuit_breaker_state" = false := by decide

/-- Claim C9: the deployed `NoSuccessfulSyncs` condition carries no
per-target grouping, so one series with `status="completed"` and positive
rate anywhere in the system — whatever its target — suppresses the alert
globally; silence of any single other target never fires it. -/
theorem no_successful_syncs_alert_global (world : List SeriesSample) (s : SeriesSample)
    (hmem : s ∈ world) (hmetric : s.metric = "sync_operations_total")
    (hlabel : ("status", "completed") ∈ s.labels) (hrate : 0 < s.rate) :
    noSuccessfulSyncs.cond = .absentRateGt "sync_operations_total" [("status", "completed")] 30 0
    ∧ evalAbsentRateGt "sync_operations_total" [("status", "completed")] 0 world = false := by
  refine ⟨rfl, ?_⟩
  unfold evalAbsentRateGt
  have hp : s ∈ world.filter (fun s2 =>
      s2.metric == "sync_operations_total"
      && selMatches s2.labels [("status", "completed")]
      && decide ((0 : ℚ) < s2.rate)) := by
    refine List.mem_filter.mpr ⟨hmem, ?_⟩
    have h1 : (s.metric == "sync_operations_total") = true := by simp [hmetric]
    have h2 : selMatches s.labels [("status", "completed")] = true := by
      simp only [selMatches, List.all_cons, List.all_nil, Bool.and_true]
      exact List.elem_eq_true_of_mem hlabel
    simp [h1, h2, hrate]
  rcases hf : world.filter (fun s2 =>
      s2.metric == "sync_operations_total"
      && selMatches s2.labels [("status", "completed")]
      && decide ((0 : ℚ) < s2.rate)) with _ | ⟨a, l⟩
  · rw [hf] at hp
    exact absurd hp (by simp)
  · rw [hf]
    rfl

/-- Witness for C9: with a completed `postgres` series at positive rate and
a `clickhouse` target showing only failures, the alert still does not fire
for the silent `clickhouse` target. -/
theorem no_successful_syncs_alert_global_witness :
    noSuccessfulSyncs.cond = .absentRateGt "sync_operations_total" [("status", "completed")] 30 0
    ∧ evalAbsentRateGt "sync_operations_total" [("status", "completed")] 0
        [⟨"sync_operations_total", [("status", "completed"), ("target", "postgres")], 1⟩,
         ⟨"sync_operations_total", [("status", "failed"), ("target", "clickhouse")], 2⟩] = false :=
  no_successful_syncs_alert_global
    [⟨"sync_operations_total", [("status", "completed"), ("target", "postgres")], 1⟩,
     ⟨"sync_operations_total", [("status", "failed"), ("target", "clickhouse")], 2⟩]
    ⟨"sync_operations_total", [("status", "completed"), ("target", "postgres")], 1⟩
    (by decide) rfl (by decide) (by decide)

/-- Claim C10: the deployed `HighRecoveryFailureRate` condition divides by
the recovery attempt rate, so whenever that rate over the window is zero the
quotient is undefined (NaN or -Inf in PromQL) and the alert does not fire,
whatever the success-rate series and the past failure history show. -/
theorem recovery_failure_alert_zero_denominator :
    highRecoveryFailureRate.cond =
      .failureRatioGt "sync_recovery_attempts_total" "sync_recovery_success_total" 5 (1/2)
    ∧ ∀ successRate : ℚ, evalFailureRatioGt (1/2) 0 successRate = false := by
  refine ⟨rfl, fun successRate => ?_⟩
  simp [evalFailureRatioGt]
